import Mathlib

/-!
# Verification of the waste-management core (Vangariwala)

Shallow embedding of the submission-valuation, ledger-accounting and
pickup-request matching engine of the Vangariwala PWA (`js/waste.js`,
`js/utils.js` calculators, `js/config.js` catalog, `js/auth.js` profile
persistence), together with proofs of the specified properties.

Modelling conventions:
* JavaScript numbers are modelled as rationals (`ℚ`); reward points and the
  collector-facing estimated value, which the code produces with
  `Math.round`, are integers (`ℤ`).
* `Math.round(x)` rounds half away from zero only for negative halves in some
  engines; the ECMA definition is `⌊x + 1/2⌋` (half towards `+∞`), modelled
  by `jsRound`.  `Math.round(x*100)/100` is `round2`.
* ISO timestamp strings, which the code only ever compares through
  `new Date(_)`, are modelled as integers (epoch time).
* DOM input rows (`.waste-input` elements with their card's `data-type`) are
  modelled as an ordered list of `(category, weight)` pairs.
* The persistence collaborator (`Utils.storage` keys `user_submissions`,
  `pickup_requests`, `config.STORAGE_KEYS.USERS`) is modelled as explicit
  state records; `Auth.updateUser` (an `Object.assign` merge on the current
  session user, persisted via `saveDemoUser`) is modelled as a record update
  followed by a replace-by-id write into the users collection.  The
  Supabase mirror write and the demo-account e-mail gate in `Auth.updateUser`
  only duplicate the same data and are collapsed into that single write.
* Presentation-only fields of the catalog entries (labels, icon, colours)
  and all toast/DOM side effects are elided.
-/

/-- ECMAScript `Math.round`: round to the nearest integer, half towards `+∞`. -/
def jsRound (q : ℚ) : ℤ := ⌊q + 1/2⌋

/-- The source's two-decimal rounding idiom `Math.round(x * 100) / 100`. -/
def round2 (q : ℚ) : ℚ := (jsRound (q * 100) : ℚ) / 100

/-- One catalog entry of `CONFIG.WASTE_TYPES` (`js/config.js`); the
presentation fields (`label_en`, `label_bn`, `icon`, `color`, `gradient`)
are elided. -/
structure WasteType where
  type : String
  co2_factor : ℚ
  points_factor : ℚ
  price_per_kg : ℚ
deriving DecidableEq, Repr

/-- `CONFIG.WASTE_TYPES` from `js/config.js`. -/
def WASTE_TYPES : List WasteType :=
  [ { type := "organic", co2_factor := 0.6, points_factor := 10, price_per_kg := 3 },
    { type := "plastic", co2_factor := 1.2, points_factor := 10, price_per_kg := 12 },
    { type := "paper", co2_factor := 0.4, points_factor := 10, price_per_kg := 8 },
    { type := "metal", co2_factor := 0.1, points_factor := 15, price_per_kg := 45 },
    { type := "glass", co2_factor := 0.1, points_factor := 12, price_per_kg := 6 },
    { type := "electronic", co2_factor := 0.8, points_factor := 20, price_per_kg := 85 } ]

/-- `Utils.calculateWastePoints` (`js/utils.js`):
`CONFIG.WASTE_TYPES.find(w => w.type === wasteType)`, then
`Math.round(weight * waste.points_factor)`, and `0` when the lookup fails. -/
def calculateWastePoints (wasteType : String) (weight : ℚ) : ℤ :=
  match WASTE_TYPES.find? (fun w => w.type == wasteType) with
  | some waste => jsRound (weight * waste.points_factor)
  | none => 0

/-- `Utils.calculateCO2Saved` (`js/utils.js`):
`Math.round((weight * waste.co2_factor) * 100) / 100`, `0` on unknown type. -/
def calculateCO2Saved (wasteType : String) (weight : ℚ) : ℚ :=
  match WASTE_TYPES.find? (fun w => w.type == wasteType) with
  | some waste => round2 (weight * waste.co2_factor)
  | none => 0

/-- `Utils.calculateTakaEarnings` (`js/utils.js`):
`Math.round((weight * waste.price_per_kg) * 100) / 100`, `0` on unknown type. -/
def calculateTakaEarnings (wasteType : String) (weight : ℚ) : ℚ :=
  match WASTE_TYPES.find? (fun w => w.type == wasteType) with
  | some waste => round2 (weight * waste.price_per_kg)
  | none => 0

/-- Claim C3: for every catalog category and weight `w ≥ 0` the three value
calculators return `round(w * pointsFactor)`, `round2(w * emissionsFactor)`
and `round2(w * price)` respectively, and for a category identifier that is
not in the catalog they all return `0` without failing. -/
theorem valueFor_spec :
    (∀ wt ∈ WASTE_TYPES, ∀ w : ℚ, 0 ≤ w →
      calculateWastePoints wt.type w = jsRound (w * wt.points_factor) ∧
      calculateCO2Saved wt.type w = round2 (w * wt.co2_factor) ∧
      calculateTakaEarnings wt.type w = round2 (w * wt.price_per_kg)) ∧
    (∀ t : String, (∀ wt ∈ WASTE_TYPES, wt.type ≠ t) → ∀ w : ℚ,
      calculateWastePoints t w = 0 ∧
      calculateCO2Saved t w = 0 ∧
      calculateTakaEarnings t w = 0) := by
  constructor
  · intro wt hwt w _
    simp only [WASTE_TYPES, List.mem_cons, List.not_mem_nil, or_false] at hwt
    rcases hwt with h | h | h | h | h | h <;> subst h <;>
      refine ⟨?_, ?_, ?_⟩ <;>
        simp [calculateWastePoints, calculateCO2Saved, calculateTakaEarnings,
          WASTE_TYPES, List.find?]
  · intro t ht w
    have hnone : WASTE_TYPES.find? (fun wt => wt.type == t) = none := by
      rw [List.find?_eq_none]
      intro wt hwt
      simpa using ht wt hwt
    refine ⟨?_, ?_, ?_⟩ <;>
      simp [calculateWastePoints, calculateCO2Saved, calculateTakaEarnings, hnone]

/-- Witness for `valueFor_spec`: the plastic entry at weight 2, and the
unknown category `"styrofoam"`. -/
theorem valueFor_spec_witness :
    calculateWastePoints "plastic" 2 = jsRound ((2 : ℚ) * 10) ∧
    calculateWastePoints "styrofoam" 2 = 0 := by
  constructor
  · exact (valueFor_spec.1
      { type := "plastic", co2_factor := 1.2, points_factor := 10, price_per_kg := 12 }
      (by simp [WASTE_TYPES]) 2 (by norm_num)).1
  · exact (valueFor_spec.2 "styrofoam" (by intro wt hwt; fin_cases hwt <;> simp) 2).1

/-- One entry of the breakdown object built by `Waste.getWasteTypeBreakdown`
(`js/waste.js`): `breakdown[wasteType] = { weight, points, co2_saved,
taka_earned }`. -/
structure BreakdownEntry where
  type : String
  weight : ℚ
  points : ℤ
  co2_saved : ℚ
  taka_earned : ℚ
deriving DecidableEq, Repr

/-- The record stored for one positive-weight input row. -/
def mkBreakdownEntry (t : String) (w : ℚ) : BreakdownEntry :=
  { type := t, weight := w,
    points := calculateWastePoints t w,
    co2_saved := calculateCO2Saved t w,
    taka_earned := calculateTakaEarnings t w }

/-- `Waste.getWasteTypeBreakdown` (`js/waste.js`): iterate over all
`.waste-input` rows and record an entry for each row with `weight > 0`. -/
def getWasteTypeBreakdown (inputs : List (String × ℚ)) : List BreakdownEntry :=
  inputs.foldl
    (fun breakdown p =>
      if 0 < p.2 then breakdown ++ [mkBreakdownEntry p.1 p.2] else breakdown)
    []

/-- The totals accumulated by the `forEach` loop of
`Waste.updateWasteSummary`: `(totalWeight, totalPoints, totalCO2, totalTaka)`. -/
def summaryStep (acc : ℚ × ℤ × ℚ × ℚ) (p : String × ℚ) : ℚ × ℤ × ℚ × ℚ :=
  if 0 < p.2 then
    (acc.1 + p.2,
     acc.2.1 + calculateWastePoints p.1 p.2,
     acc.2.2.1 + calculateCO2Saved p.1 p.2,
     acc.2.2.2 + calculateTakaEarnings p.1 p.2)
  else acc

/-- The `this.wasteData` record produced by `Waste.updateWasteSummary`. -/
structure WasteData where
  totalWeight : ℚ
  totalPoints : ℤ
  totalCO2 : ℚ
  totalTaka : ℚ
  wasteTypes : List BreakdownEntry
deriving DecidableEq, Repr

/-- `Waste.updateWasteSummary` (`js/waste.js`): accumulate the four totals
over all input rows (skipping rows with `weight ≤ 0`) and store the
per-category breakdown. -/
def updateWasteSummary (inputs : List (String × ℚ)) : WasteData :=
  let t := inputs.foldl summaryStep (0, 0, 0, 0)
  { totalWeight := t.1, totalPoints := t.2.1, totalCO2 := t.2.2.1,
    totalTaka := t.2.2.2, wasteTypes := getWasteTypeBreakdown inputs }

lemma foldl_summaryStep (inputs : List (String × ℚ)) (acc : ℚ × ℤ × ℚ × ℚ) :
    inputs.foldl summaryStep acc =
      (acc.1 + (((inputs.filter fun p => 0 < p.2).map Prod.snd).sum),
       acc.2.1 + (((inputs.filter fun p => 0 < p.2).map
          fun p => calculateWastePoints p.1 p.2).sum),
       acc.2.2.1 + (((inputs.filter fun p => 0 < p.2).map
          fun p => calculateCO2Saved p.1 p.2).sum),
       acc.2.2.2 + (((inputs.filter fun p => 0 < p.2).map
          fun p => calculateTakaEarnings p.1 p.2).sum)) := by
  induction inputs generalizing acc with
  | nil => simp
  | cons p tl ih =>
    by_cases h : 0 < p.2
    · simp only [List.foldl_cons, summaryStep, if_pos h, ih, List.filter_cons,
        decide_eq_true_eq, h, if_true, List.map_cons, List.sum_cons]
      refine Prod.ext ?_ (Prod.ext ?_ (Prod.ext ?_ ?_)) <;> dsimp <;> ring
    · simp only [List.foldl_cons, summaryStep, if_neg h, ih, List.filter_cons,
        decide_eq_true_eq, h, if_false]

lemma foldl_breakdown (inputs : List (String × ℚ)) (acc : List BreakdownEntry) :
    inputs.foldl
        (fun breakdown p =>
          if 0 < p.2 then breakdown ++ [mkBreakdownEntry p.1 p.2] else breakdown)
        acc =
      acc ++ (inputs.filter fun p => 0 < p.2).map fun p => mkBreakdownEntry p.1 p.2 := by
  induction inputs generalizing acc with
  | nil => simp
  | cons p tl ih =>
    by_cases h : 0 < p.2
    · simp [List.filter_cons, h, ih]
    · simp [List.filter_cons, h, ih]

/-- Claim C4: the batch valuation drops non-positive weights, values each
remaining category independently (with per-category rounding), and the
totals are the sums of the already-rounded per-category values; concretely
the batch `{plastic: 2, paper: 1}` yields `totalWeight = 3`,
`totalPoints = 30`, `totalEmissions = 2.8`, `totalValue = 32`. -/
theorem valueForBatch_spec :
    (∀ inputs : List (String × ℚ),
      (updateWasteSummary inputs).wasteTypes =
          ((inputs.filter fun p => 0 < p.2).map fun p => mkBreakdownEntry p.1 p.2) ∧
      (updateWasteSummary inputs).totalWeight =
          (((inputs.filter fun p => 0 < p.2).map Prod.snd).sum) ∧
      (updateWasteSummary inputs).totalPoints =
          (((inputs.filter fun p => 0 < p.2).map
              fun p => calculateWastePoints p.1 p.2).sum) ∧
      (updateWasteSummary inputs).totalCO2 =
          (((inputs.filter fun p => 0 < p.2).map
              fun p => calculateCO2Saved p.1 p.2).sum) ∧
      (updateWasteSummary inputs).totalTaka =
          (((inputs.filter fun p => 0 < p.2).map
              fun p => calculateTakaEarnings p.1 p.2).sum)) ∧
    ((updateWasteSummary [("plastic", 2), ("paper", 1)]).totalWeight = 3 ∧
     (updateWasteSummary [("plastic", 2), ("paper", 1)]).totalPoints = 30 ∧
     (updateWasteSummary [("plastic", 2), ("paper", 1)]).totalCO2 = 2.8 ∧
     (updateWasteSummary [("plastic", 2), ("paper", 1)]).totalTaka = 32) := by
  constructor
  · intro inputs
    refine ⟨?_, ?_, ?_, ?_, ?_⟩ <;>
      simp [updateWasteSummary, getWasteTypeBreakdown, foldl_summaryStep,
        foldl_breakdown]
  · have hpl : WASTE_TYPES.find? (fun w => w.type == "plastic") =
        some { type := "plastic", co2_factor := 1.2, points_factor := 10,
               price_per_kg := 12 } := rfl
    have hpa : WASTE_TYPES.find? (fun w => w.type == "paper") =
        some { type := "paper", co2_factor := 0.4, points_factor := 10,
               price_per_kg := 8 } := rfl
    refine ⟨?_, ?_, ?_, ?_⟩ <;>
      norm_num [updateWasteSummary, summaryStep, getWasteTypeBreakdown,
        calculateWastePoints, calculateCO2Saved, calculateTakaEarnings,
        hpl, hpa, jsRound, round2]

/-- The authenticated actor profile (`Auth` session user, `js/auth.js` /
`js/config.js` demo users).  The ledger fields default to `0` in the code
(`currentUser.points || 0` etc.); they are total here. -/
structure User where
  id : String
  name : String
  address : String
  phone : String
  user_type : String
  points : ℤ
  co2_saved : ℚ
  earnings : ℚ
  jobs_today : ℤ
deriving DecidableEq, Repr

/-- A record of the `user_submissions` collection
(`Waste.handleWasteSubmission`, `js/waste.js`). -/
structure Submission where
  id : String
  user_id : String
  date : ℤ
  total_weight : ℚ
  total_points : ℤ
  total_co2_saved : ℚ
  waste_types : List BreakdownEntry
  status : String
deriving DecidableEq, Repr

/-- A record of the `pickup_requests` collection
(`Waste.createPickupRequest`, `js/waste.js`).  The collector fields are
absent (`none`) until a collector accepts the request. -/
structure PickupRequest where
  id : String
  submission_id : String
  household_id : String
  household_name : String
  household_address : String
  household_phone : String
  total_weight : ℚ
  waste_types : List BreakdownEntry
  estimated_value : ℤ
  status : String
  created_at : ℤ
  priority : String
  collector_id : Option String := none
  collector_name : Option String := none
  collector_phone : Option String := none
  accepted_at : Option ℤ := none
deriving DecidableEq, Repr

/-- The `pricing` table hard-coded inside `Waste.calculateEstimatedValue`
(`js/waste.js`), with its `pricing[type] || 5` fallback. -/
def pricing (t : String) : ℚ :=
  if t == "plastic" then 15
  else if t == "paper" then 8
  else if t == "metal" then 25
  else if t == "glass" then 5
  else if t == "electronic" then 50
  else if t == "organic" then 3
  else 5

/-- `Waste.calculateEstimatedValue` (`js/waste.js`): sum `weight * rate`
over the breakdown entries and `Math.round` the total. -/
def calculateEstimatedValue (wasteTypes : List BreakdownEntry) : ℤ :=
  jsRound (wasteTypes.foldl (fun acc e => acc + e.weight * pricing e.type) 0)

/-- `Waste.calculatePriority` (`js/waste.js`). -/
def calculatePriority (totalWeight : ℚ) : String :=
  if 10 ≤ totalWeight then "high"
  else if 5 ≤ totalWeight then "medium"
  else "low"

/-- `Waste.createPickupRequest` (`js/waste.js`): no-op when there is no
current user, otherwise append one new pending request to the
`pickup_requests` collection.  `newId` models `Utils.generateId()` and
`now` models `new Date().toISOString()`. -/
def createPickupRequest (submission : Submission) (currentUser : Option User)
    (newId : String) (now : ℤ) (requests : List PickupRequest) :
    List PickupRequest :=
  match currentUser with
  | none => requests
  | some u =>
    requests ++
      [{ id := newId,
         submission_id := submission.id,
         household_id := u.id,
         household_name := u.name,
         household_address := u.address,
         household_phone := u.phone,
         total_weight := submission.total_weight,
         waste_types := submission.waste_types,
         estimated_value := calculateEstimatedValue submission.waste_types,
         status := "pending",
         created_at := now,
         priority := calculatePriority submission.total_weight }]

/-- Claim C5: `createPickupRequest` appends exactly one new request, with
status `pending`, back-referencing the submission, and with priority
computed solely from the total weight (`≥10` high, `≥5` medium, else low);
concretely weight 12 is `high`, 7 is `medium`, 3 is `low`. -/
theorem enqueue_spec :
    (∀ (submission : Submission) (u : User) (newId : String) (now : ℤ)
        (requests : List PickupRequest),
      ∃ r : PickupRequest,
        createPickupRequest submission (some u) newId now requests =
            requests ++ [r] ∧
        r.status = "pending" ∧
        r.submission_id = submission.id ∧
        r.priority = calculatePriority submission.total_weight) ∧
    calculatePriority 12 = "high" ∧
    calculatePriority 7 = "medium" ∧
    calculatePriority 3 = "low" := by
  refine ⟨fun submission u newId now requests => ⟨_, rfl, rfl, rfl, rfl⟩, ?_, ?_, ?_⟩ <;>
    norm_num [calculatePriority]

/-- Claim C9: the rate table used for a request's `estimated_value` is a
different table from the catalog's `price_per_kg`, and there is a category
and positive weight where the request's estimated value differs from the
taka value the calculator assigns to the same category and weight. -/
theorem estimated_value_divergence :
    (∃ wt ∈ WASTE_TYPES, pricing wt.type ≠ wt.price_per_kg) ∧
    (∃ (t : String) (w : ℚ), 0 < w ∧
      (calculateEstimatedValue (getWasteTypeBreakdown [(t, w)]) : ℚ) ≠
        calculateTakaEarnings t w) := by
  constructor
  · refine ⟨{ type := "plastic", co2_factor := 1.2, points_factor := 10,
              price_per_kg := 12 }, by simp [WASTE_TYPES], ?_⟩
    norm_num [pricing]
  · refine ⟨"plastic", 1, by norm_num, ?_⟩
    have hpl : WASTE_TYPES.find? (fun w => w.type == "plastic") =
        some { type := "plastic", co2_factor := 1.2, points_factor := 10,
               price_per_kg := 12 } := rfl
    have hpr : pricing "plastic" = 15 := rfl
    norm_num [calculateEstimatedValue, getWasteTypeBreakdown, mkBreakdownEntry,
      calculateTakaEarnings, hpl, hpr, jsRound, round2]

/-- The `priorityOrder` table of the comparator in `Waste.loadPickupRequests`
(`js/waste.js`): `{ high: 3, medium: 2, low: 1 }`.  Requests are always
created with one of the three tiers; the `0` default stands for the
out-of-table lookup. -/
def priorityOrder (p : String) : ℤ :=
  if p == "high" then 3
  else if p == "medium" then 2
  else if p == "low" then 1
  else 0

/-- `a` sorts no later than `b` under the comparator of
`Waste.loadPickupRequests`: the comparator returns
`priorityOrder[b] - priorityOrder[a]`, falling back to
`date(b) - date(a)` on a tie, and `a` precedes `b` exactly when that value
is `≤ 0`. -/
def requestLE (a b : PickupRequest) : Prop :=
  priorityOrder b.priority < priorityOrder a.priority ∨
    (priorityOrder b.priority = priorityOrder a.priority ∧
      b.created_at ≤ a.created_at)

instance : DecidableRel requestLE := fun a b =>
  inferInstanceAs (Decidable
    (priorityOrder b.priority < priorityOrder a.priority ∨
      (priorityOrder b.priority = priorityOrder a.priority ∧
        b.created_at ≤ a.created_at)))

instance : IsTotal PickupRequest requestLE :=
  ⟨by intro a b; unfold requestLE; omega⟩

instance : IsTrans PickupRequest requestLE :=
  ⟨by intro a b c hab hbc; unfold requestLE at *; omega⟩

/-- The data computation of `Waste.loadPickupRequests` (`js/waste.js`): keep
the pending requests and sort them with the priority-then-recency
comparator (rendering of the resulting list is elided). -/
def loadPickupRequests (requests : List PickupRequest) : List PickupRequest :=
  List.insertionSort requestLE (requests.filter fun r => r.status == "pending")

/-- Claim C6: `loadPickupRequests` returns exactly the pending requests,
ordered by priority tier (high before medium before low) and by creation
time descending within a tier; in particular a pending `high` request
created at `t2 > t1` precedes a pending `medium` request created at `t1`,
whichever of the two insertion orders the store holds. -/
theorem list_pending_spec :
    (∀ requests : List PickupRequest,
      (loadPickupRequests requests).Perm
          (requests.filter fun r => r.status == "pending") ∧
      (loadPickupRequests requests).Sorted requestLE) ∧
    (∀ (rH rM : PickupRequest) (t1 t2 : ℤ),
      rH.priority = "high" → rM.priority = "medium" →
      rH.status = "pending" → rM.status = "pending" →
      rH.created_at = t2 → rM.created_at = t1 → t1 < t2 →
      loadPickupRequests [rM, rH] = [rH, rM] ∧
      loadPickupRequests [rH, rM] = [rH, rM]) := by
  constructor
  · intro requests
    exact ⟨List.perm_insertionSort _ _, List.sorted_insertionSort _ _⟩
  · intro rH rM t1 t2 hH hM hHs hMs hHt hMt hlt
    have hMH : ¬ requestLE rM rH := by
      unfold requestLE
      simp [priorityOrder, hH, hM, hHt, hMt]
    have hHM : requestLE rH rM := by
      unfold requestLE
      simp [priorityOrder, hH, hM]
    constructor <;>
      simp [loadPickupRequests, List.insertionSort, List.orderedInsert,
        hHs, hMs, hMH, hHM]

/-- Witness for `list_pending_spec`: two concrete pending requests, `high`
created at time 2 and `medium` created at time 1, listed from either
insertion order. -/
theorem list_pending_spec_witness :
    loadPickupRequests
        [{ id := "m", submission_id := "sm", household_id := "h1",
           household_name := "H", household_address := "A",
           household_phone := "P", total_weight := 7, waste_types := [],
           estimated_value := 35, status := "pending", created_at := 1,
           priority := "medium" },
         { id := "h", submission_id := "sh", household_id := "h2",
           household_name := "H2", household_address := "A2",
           household_phone := "P2", total_weight := 12, waste_types := [],
           estimated_value := 60, status := "pending", created_at := 2,
           priority := "high" }] =
      [{ id := "h", submission_id := "sh", household_id := "h2",
         household_name := "H2", household_address := "A2",
         household_phone := "P2", total_weight := 12, waste_types := [],
         estimated_value := 60, status := "pending", created_at := 2,
         priority := "high" },
       { id := "m", submission_id := "sm", household_id := "h1",
         household_name := "H", household_address := "A",
         household_phone := "P", total_weight := 7, waste_types := [],
         estimated_value := 35, status := "pending", created_at := 1,
         priority := "medium" }] :=
  (list_pending_spec.2
    { id := "h", submission_id := "sh", household_id := "h2",
      household_name := "H2", household_address := "A2",
      household_phone := "P2", total_weight := 12, waste_types := [],
      estimated_value := 60, status := "pending", created_at := 2,
      priority := "high" }
    { id := "m", submission_id := "sm", household_id := "h1",
      household_name := "H", household_address := "A",
      household_phone := "P", total_weight := 7, waste_types := [],
      estimated_value := 35, status := "pending", created_at := 1,
      priority := "medium" }
    1 2 rfl rfl rfl rfl rfl rfl (by norm_num)).1

/-- Outcome of `Waste.acceptPickupRequest` as reported to the caller:
the `'Only collectors can accept requests'` rejection, the
`'Request not found'` rejection, or success with the updated request. -/
inductive AcceptResult where
  | notCollector : AcceptResult
  | notFound : AcceptResult
  | accepted : PickupRequest → AcceptResult
deriving DecidableEq, Repr

/-- The storage touched by `Waste.acceptPickupRequest`: the
`pickup_requests` collection and the persisted user profiles carrying the
ledger fields. -/
structure EngineState where
  requests : List PickupRequest
  users : List User
deriving DecidableEq, Repr

/-- `Auth.saveDemoUser` (`js/app.js`): replace the stored profile with the
same id, or append it when absent (`findIndex` / `-1` totalised as an
index-bound check). -/
def saveDemoUser (user : User) (users : List User) : List User :=
  let index := users.findIdx fun u => u.id == user.id
  if index < users.length then users.set index user else users ++ [user]

/-- The request update spread in `Waste.acceptPickupRequest`:
`{ ...request, status: 'accepted', collector_id, collector_name,
collector_phone, accepted_at }`. -/
def acceptUpdate (request : PickupRequest) (u : User) (now : ℤ) :
    PickupRequest :=
  { request with
    status := "accepted",
    collector_id := some u.id,
    collector_name := some u.name,
    collector_phone := some u.phone,
    accepted_at := some now }

/-- The collector-stats update in `Waste.acceptPickupRequest`:
`earnings = (currentUser.earnings || 0) + request.estimated_value`,
`jobs_today = (currentUser.jobs_today || 0) + 1`. -/
def creditCollector (u : User) (estimatedValue : ℤ) : User :=
  { u with
    earnings := u.earnings + (estimatedValue : ℚ),
    jobs_today := u.jobs_today + 1 }

/-- `Waste.acceptPickupRequest` (`js/waste.js`): reject non-collector
callers; look the request up by id (`findIndex`, rejected when `-1`,
totalised as an index-bound check); otherwise overwrite the request with
the accepted/stamped copy, persist the collection, and credit the
collector's ledger via `Auth.updateUser`.  The code performs no check of
the request's current status. -/
def acceptPickupRequest (requestId : String) (currentUser : Option User)
    (now : ℤ) (st : EngineState) : AcceptResult × EngineState :=
  match currentUser with
  | none => (.notCollector, st)
  | some u =>
    if u.user_type = "collector" then
      let requestIndex := st.requests.findIdx fun r => r.id == requestId
      if h : requestIndex < st.requests.length then
        let request := st.requests.get ⟨requestIndex, h⟩
        let updated := acceptUpdate request u now
        (.accepted updated,
         { requests := st.requests.set requestIndex updated,
           users := saveDemoUser (creditCollector u request.estimated_value)
                      st.users })
      else (.notFound, st)
    else (.notCollector, st)

lemma findIdx_append_cons (pre post : List PickupRequest)
    (req : PickupRequest) (rid : String)
    (hpre : ∀ r ∈ pre, r.id ≠ rid) (hid : req.id = rid) :
    ((pre ++ req :: post).findIdx fun r => r.id == rid) = pre.length := by
  induction pre with
  | nil => simp [List.findIdx_cons, hid]
  | cons a tl ih =>
    have ha : (a.id == rid) = false := by
      simpa using hpre a (List.mem_cons_self a tl)
    simp [List.findIdx_cons, ha,
      ih fun r hr => hpre r (List.mem_cons_of_mem a hr)]

lemma findIdx_eq_length (l : List PickupRequest) (rid : String)
    (h : ∀ r ∈ l, r.id ≠ rid) :
    (l.findIdx fun r => r.id == rid) = l.length := by
  induction l with
  | nil => rfl
  | cons a tl ih =>
    have ha : (a.id == rid) = false := by
      simpa using h a (List.mem_cons_self a tl)
    simp [List.findIdx_cons, ha,
      ih fun r hr => h r (List.mem_cons_of_mem a hr)]

lemma get_append_cons (pre post : List PickupRequest) (req : PickupRequest)
    (h : pre.length < (pre ++ req :: post).length) :
    (pre ++ req :: post).get ⟨pre.length, h⟩ = req := by
  induction pre with
  | nil => rfl
  | cons a tl ih => exact ih (by simp)

lemma set_append_cons (pre post : List PickupRequest) (req v : PickupRequest) :
    (pre ++ req :: post).set pre.length v = pre ++ v :: post := by
  induction pre with
  | nil => rfl
  | cons a tl ih => simp [ih]

/-- Core behaviour of `acceptPickupRequest` when the caller is a collector
and a request with the sought id is stored (`pre` holds the earlier,
non-matching entries): the call succeeds and credits the collector
regardless of the request's current status. -/
lemma accept_found (u : User) (now : ℤ) (rid : String)
    (pre post : List PickupRequest) (req : PickupRequest) (users : List User)
    (hcol : u.user_type = "collector")
    (hpre : ∀ r ∈ pre, r.id ≠ rid) (hid : req.id = rid) :
    acceptPickupRequest rid (some u) now ⟨pre ++ req :: post, users⟩ =
      (.accepted (acceptUpdate req u now),
       { requests := pre ++ acceptUpdate req u now :: post,
         users := saveDemoUser (creditCollector u req.estimated_value)
                    users }) := by
  have hfind := findIdx_append_cons pre post req rid hpre hid
  have hlen : pre.length < (pre ++ req :: post).length := by simp
  have hget := get_append_cons pre post req hlen
  have hset := set_append_cons pre post req (acceptUpdate req u now)
  simp only [acceptPickupRequest, hcol, if_true, hfind, dif_pos hlen,
    hget, hset]

/-- `CONFIG.DEMO_USERS.HOUSEHOLD` (`js/config.js`), with an identifier for
the session (the ledger fields absent in the config default to `0`). -/
def DEMO_HOUSEHOLD : User :=
  { id := "demo-household", name := "Rahul Ahmed",
    address := "Dhanmondi 27, Dhaka", phone := "01712345678",
    user_type := "household", points := 150, co2_saved := 25.5,
    earnings := 0, jobs_today := 0 }

/-- `CONFIG.DEMO_USERS.COLLECTOR` (`js/config.js`), with an identifier for
the session (the ledger fields absent in the config default to `0`). -/
def DEMO_COLLECTOR : User :=
  { id := "demo-collector", name := "Karim Mia",
    address := "Uttara, Dhaka", phone := "01798765432",
    user_type := "collector", points := 0, co2_saved := 0,
    earnings := 2500, jobs_today := 3 }

/-- A stored pending pickup request used as concrete test data. -/
def samplePendingRequest : PickupRequest :=
  { id := "req-1", submission_id := "sub-1",
    household_id := "demo-household", household_name := "Rahul Ahmed",
    household_address := "Dhanmondi 27, Dhaka",
    household_phone := "01712345678", total_weight := 3,
    waste_types := [], estimated_value := 31, status := "pending",
    created_at := 100, priority := "low" }

/-- The same stored request after a first collector has already accepted
it. -/
def sampleAcceptedRequest : PickupRequest :=
  { samplePendingRequest with
    status := "accepted", estimated_value := 100,
    collector_id := some "collector-0",
    collector_name := some "First Collector",
    collector_phone := some "01000000000",
    accepted_at := some 120 }

/-- Claim C2: on a stored pending request, a collector's accept succeeds:
the request is overwritten with status `accepted`, stamped with the
collector's identifier, name, phone and the acceptance timestamp, the
updated collection is persisted, and the collector's ledger is credited by
exactly `earnings += estimatedValue` and `jobs_today += 1`. -/
theorem accept_pending_spec :
    ∀ (u : User) (now : ℤ) (rid : String) (pre post : List PickupRequest)
      (req : PickupRequest) (users : List User),
      u.user_type = "collector" →
      (∀ r ∈ pre, r.id ≠ rid) → req.id = rid → req.status = "pending" →
      acceptPickupRequest rid (some u) now ⟨pre ++ req :: post, users⟩ =
        (.accepted (acceptUpdate req u now),
         { requests := pre ++ acceptUpdate req u now :: post,
           users := saveDemoUser (creditCollector u req.estimated_value)
                      users }) ∧
      (acceptUpdate req u now).status = "accepted" ∧
      (acceptUpdate req u now).collector_id = some u.id ∧
      (acceptUpdate req u now).collector_name = some u.name ∧
      (acceptUpdate req u now).collector_phone = some u.phone ∧
      (acceptUpdate req u now).accepted_at = some now ∧
      (creditCollector u req.estimated_value).earnings =
          u.earnings + (req.estimated_value : ℚ) ∧
      (creditCollector u req.estimated_value).jobs_today =
          u.jobs_today + 1 := by
  intro u now rid pre post req users hcol hpre hid _
  exact ⟨accept_found u now rid pre post req users hcol hpre hid,
    rfl, rfl, rfl, rfl, rfl, rfl, rfl⟩

/-- Witness for `accept_pending_spec`: the demo collector accepting the
stored pending request. -/
theorem accept_pending_spec_witness :
    acceptPickupRequest "req-1" (some DEMO_COLLECTOR) 200
        ⟨[samplePendingRequest], [DEMO_COLLECTOR]⟩ =
      (.accepted (acceptUpdate samplePendingRequest DEMO_COLLECTOR 200),
       { requests := [acceptUpdate samplePendingRequest DEMO_COLLECTOR 200],
         users := saveDemoUser
            (creditCollector DEMO_COLLECTOR
              samplePendingRequest.estimated_value)
            [DEMO_COLLECTOR] }) :=
  (accept_pending_spec DEMO_COLLECTOR 200 "req-1" [] []
    samplePendingRequest [DEMO_COLLECTOR] rfl (by simp) rfl rfl).1

/-- Claim C1 (counterexample): the code performs no status check in
`acceptPickupRequest`, so on a request that is already `accepted` a second
accept does not fail — it succeeds, rewrites the request, and credits the
collector's ledger again (2500 becomes 2600). -/
theorem accept_nonpending_counterexample :
    sampleAcceptedRequest.status ≠ "pending" ∧
    (acceptPickupRequest "req-1" (some DEMO_COLLECTOR) 200
        ⟨[sampleAcceptedRequest], [DEMO_COLLECTOR]⟩).1 =
      .accepted (acceptUpdate sampleAcceptedRequest DEMO_COLLECTOR 200) ∧
    (acceptPickupRequest "req-1" (some DEMO_COLLECTOR) 200
        ⟨[sampleAcceptedRequest], [DEMO_COLLECTOR]⟩).2.requests ≠
      [sampleAcceptedRequest] ∧
    (acceptPickupRequest "req-1" (some DEMO_COLLECTOR) 200
        ⟨[sampleAcceptedRequest], [DEMO_COLLECTOR]⟩).2.users.map
        User.earnings = [2600] ∧
    DEMO_COLLECTOR.earnings = 2500 := by
  have h := accept_found DEMO_COLLECTOR 200 "req-1" [] []
    sampleAcceptedRequest [DEMO_COLLECTOR] rfl (by simp) rfl
  refine ⟨by simp [sampleAcceptedRequest, samplePendingRequest], ?_, ?_, ?_, rfl⟩
  · rw [show ([sampleAcceptedRequest] : List PickupRequest) =
        [] ++ sampleAcceptedRequest :: [] by rfl, h]
  · rw [show ([sampleAcceptedRequest] : List PickupRequest) =
        [] ++ sampleAcceptedRequest :: [] by rfl, h]
    simp [acceptUpdate, sampleAcceptedRequest, samplePendingRequest]
  · rw [show ([sampleAcceptedRequest] : List PickupRequest) =
        [] ++ sampleAcceptedRequest :: [] by rfl, h]
    have hsave : saveDemoUser
        (creditCollector DEMO_COLLECTOR sampleAcceptedRequest.estimated_value)
        [DEMO_COLLECTOR] =
        [creditCollector DEMO_COLLECTOR
          sampleAcceptedRequest.estimated_value] := by
      simp [saveDemoUser, creditCollector, DEMO_COLLECTOR, List.findIdx_cons]
    rw [hsave]
    simp [creditCollector, DEMO_COLLECTOR, sampleAcceptedRequest,
      samplePendingRequest]
    norm_num

/-- Claim C1 (amended): for a stored request whose status is not `pending`,
`accept` does not fail with `InvalidState` — the code has no status check —
so the call succeeds again exactly as for a pending request, re-stamping
the collector fields and crediting the collector's ledger another
`earnings += estimatedValue` and `jobs_today += 1`; accept can therefore
succeed more than once for the same request id and the ledger can be
credited twice for the same request. -/
theorem accept_nonpending_succeeds :
    ∀ (u : User) (now : ℤ) (rid : String) (pre post : List PickupRequest)
      (req : PickupRequest) (users : List User),
      u.user_type = "collector" →
      (∀ r ∈ pre, r.id ≠ rid) → req.id = rid → req.status ≠ "pending" →
      acceptPickupRequest rid (some u) now ⟨pre ++ req :: post, users⟩ =
        (.accepted (acceptUpdate req u now),
         { requests := pre ++ acceptUpdate req u now :: post,
           users := saveDemoUser (creditCollector u req.estimated_value)
                      users }) ∧
      (creditCollector u req.estimated_value).earnings =
          u.earnings + (req.estimated_value : ℚ) ∧
      (creditCollector u req.estimated_value).jobs_today =
          u.jobs_today + 1 := by
  intro u now rid pre post req users hcol hpre hid _
  exact ⟨accept_found u now rid pre post req users hcol hpre hid, rfl, rfl⟩

/-- Witness for `accept_nonpending_succeeds`: the demo collector accepting
the already-accepted stored request a second time. -/
theorem accept_nonpending_succeeds_witness :
    acceptPickupRequest "req-1" (some DEMO_COLLECTOR) 200
        ⟨[sampleAcceptedRequest], [DEMO_COLLECTOR]⟩ =
      (.accepted (acceptUpdate sampleAcceptedRequest DEMO_COLLECTOR 200),
       { requests := [acceptUpdate sampleAcceptedRequest DEMO_COLLECTOR 200],
         users := saveDemoUser
            (creditCollector DEMO_COLLECTOR
              sampleAcceptedRequest.estimated_value)
            [DEMO_COLLECTOR] }) :=
  (accept_nonpending_succeeds DEMO_COLLECTOR 200 "req-1" [] []
    sampleAcceptedRequest [DEMO_COLLECTOR] rfl (by simp) rfl
    (by simp [sampleAcceptedRequest, samplePendingRequest])).1

/-- Claim C7: when no stored request has the sought identifier, a
collector's accept fails with the not-found rejection and performs no
mutation at all: the request collection and every stored user profile
(hence every ledger field) are unchanged. -/
theorem accept_notfound_spec :
    ∀ (u : User) (now : ℤ) (rid : String) (st : EngineState),
      u.user_type = "collector" →
      (∀ r ∈ st.requests, r.id ≠ rid) →
      acceptPickupRequest rid (some u) now st = (.notFound, st) := by
  intro u now rid st hcol hnone
  have hfind := findIdx_eq_length st.requests rid hnone
  simp only [acceptPickupRequest, hcol, if_true, hfind]
  rw [dif_neg (lt_irrefl st.requests.length)]

/-- Witness for `accept_notfound_spec`: the demo collector targeting the
unknown id `"nonexistent"`. -/
theorem accept_notfound_spec_witness :
    acceptPickupRequest "nonexistent" (some DEMO_COLLECTOR) 200
        ⟨[samplePendingRequest], [DEMO_COLLECTOR]⟩ =
      (.notFound, ⟨[samplePendingRequest], [DEMO_COLLECTOR]⟩) :=
  accept_notfound_spec DEMO_COLLECTOR 200 "nonexistent"
    ⟨[samplePendingRequest], [DEMO_COLLECTOR]⟩ rfl
    (by simp [samplePendingRequest])

/-- Claim C10: a caller whose role is not `collector` is rejected by
`acceptPickupRequest` before any lookup, for every request id and state:
the call fails with the only-collectors rejection and mutates nothing. -/
theorem accept_noncollector_spec :
    ∀ (u : User) (now : ℤ) (rid : String) (st : EngineState),
      u.user_type ≠ "collector" →
      acceptPickupRequest rid (some u) now st = (.notCollector, st) := by
  intro u now rid st hu
  simp only [acceptPickupRequest, if_neg hu]

/-- Witness for `accept_noncollector_spec`: the demo household user trying
to accept the stored pending request. -/
theorem accept_noncollector_spec_witness :
    acceptPickupRequest "req-1" (some DEMO_HOUSEHOLD) 200
        ⟨[samplePendingRequest], [DEMO_HOUSEHOLD]⟩ =
      (.notCollector, ⟨[samplePendingRequest], [DEMO_HOUSEHOLD]⟩) :=
  accept_noncollector_spec DEMO_HOUSEHOLD 200 "req-1"
    ⟨[samplePendingRequest], [DEMO_HOUSEHOLD]⟩ (by simp [DEMO_HOUSEHOLD])

/-- The storage touched by `Waste.handleWasteSubmission`: the
`user_submissions` and `pickup_requests` collections and the persisted
user profiles. -/
structure AppState where
  user_submissions : List Submission
  pickup_requests : List PickupRequest
  users : List User
deriving DecidableEq, Repr

/-- `Waste.handleWasteSubmission` (`js/waste.js`): reject when
unauthenticated or when the accumulated total weight is `0`; otherwise
append the submission record, credit the household's ledger
(`points += totalPoints`; `co2_saved` rounded to two decimals after the
addition of `totalCO2`) via `Auth.updateUser`, and enqueue the pickup
request (which reads the already-updated current user).  `newSubmissionId`
and `newRequestId` model the two `Utils.generateId()` calls and `now` the
timestamps. -/
def handleWasteSubmission (currentUser : Option User) (wasteData : WasteData)
    (newSubmissionId newRequestId : String) (now : ℤ) (st : AppState) :
    Option (User × AppState) :=
  match currentUser with
  | none => none
  | some u =>
    if wasteData.totalWeight = 0 then none
    else
      let submission : Submission :=
        { id := newSubmissionId, user_id := u.id, date := now,
          total_weight := wasteData.totalWeight,
          total_points := wasteData.totalPoints,
          total_co2_saved := wasteData.totalCO2,
          waste_types := wasteData.wasteTypes, status := "submitted" }
      let updatedUser : User :=
        { u with
          points := u.points + wasteData.totalPoints,
          co2_saved := round2 (u.co2_saved + wasteData.totalCO2) }
      some (updatedUser,
        { user_submissions := st.user_submissions ++ [submission],
          pickup_requests :=
            createPickupRequest submission (some updatedUser) newRequestId
              now st.pickup_requests,
          users := saveDemoUser updatedUser st.users })

lemma jsRound_intCast (m : ℤ) : jsRound (m : ℚ) = m := by
  unfold jsRound
  rw [add_comm, Int.floor_add_int]
  norm_num

lemma round2_intCast_div (m : ℤ) : round2 ((m : ℚ) / 100) = (m : ℚ) / 100 := by
  unfold round2
  rw [div_mul_cancel₀ (m : ℚ) (by norm_num : (100 : ℚ) ≠ 0), jsRound_intCast]

lemma summary_plastic_paper :
    (updateWasteSummary [("plastic", 2), ("paper", 1)]).totalWeight = 3 ∧
    (updateWasteSummary [("plastic", 2), ("paper", 1)]).totalPoints = 30 ∧
    (updateWasteSummary [("plastic", 2), ("paper", 1)]).totalCO2 = 2.8 := by
  have hpl : WASTE_TYPES.find? (fun w => w.type == "plastic") =
      some { type := "plastic", co2_factor := 1.2, points_factor := 10,
             price_per_kg := 12 } := rfl
  have hpa : WASTE_TYPES.find? (fun w => w.type == "paper") =
      some { type := "paper", co2_factor := 0.4, points_factor := 10,
             price_per_kg := 8 } := rfl
  refine ⟨?_, ?_, ?_⟩ <;>
    norm_num [updateWasteSummary, summaryStep, calculateWastePoints,
      calculateCO2Saved, calculateTakaEarnings, hpl, hpa, jsRound, round2]

/-- Claim C8: every successful submission changes the submitting
household's account by exactly `points += totalPoints` and
`co2_saved += totalCO2` (rounded to two decimals after the addition),
leaving every other field of that account untouched; in the
`{plastic: 2, paper: 1}` case (with a stored `co2_saved` of at most two
decimals, as every credit ever stores) the points increase by exactly 30
and `co2_saved` by exactly 2.80. -/
theorem submit_ledger_spec :
    (∀ (u : User) (wd : WasteData) (sid rid : String) (now : ℤ)
        (st : AppState),
      wd.totalWeight ≠ 0 →
      ∃ st' : AppState,
        handleWasteSubmission (some u) wd sid rid now st =
          some ({ u with
                  points := u.points + wd.totalPoints,
                  co2_saved := round2 (u.co2_saved + wd.totalCO2) }, st')) ∧
    (∀ (u : User) (n : ℤ) (sid rid : String) (now : ℤ) (st : AppState),
      u.co2_saved = (n : ℚ) / 100 →
      ∃ (u' : User) (st' : AppState),
        handleWasteSubmission (some u)
            (updateWasteSummary [("plastic", 2), ("paper", 1)]) sid rid now
            st = some (u', st') ∧
        u'.points = u.points + 30 ∧
        u'.co2_saved = u.co2_saved + 2.8 ∧
        u'.earnings = u.earnings ∧
        u'.jobs_today = u.jobs_today ∧
        u'.id = u.id ∧ u'.name = u.name ∧ u'.address = u.address ∧
        u'.phone = u.phone ∧ u'.user_type = u.user_type) := by
  constructor
  · intro u wd sid rid now st hw
    simp only [handleWasteSubmission, if_neg hw]
    exact ⟨_, rfl⟩
  · intro u n sid rid now st hn
    obtain ⟨hw, hp, hc⟩ := summary_plastic_paper
    have hne : (updateWasteSummary [("plastic", 2), ("paper", 1)]).totalWeight
        ≠ 0 := by rw [hw]; norm_num
    simp only [handleWasteSubmission, if_neg hne]
    refine ⟨_, _, rfl, ?_, ?_, rfl, rfl, rfl, rfl, rfl, rfl, rfl⟩
    · show u.points +
        (updateWasteSummary [("plastic", 2), ("paper", 1)]).totalPoints =
          u.points + 30
      rw [hp]
    · show round2 (u.co2_saved +
        (updateWasteSummary [("plastic", 2), ("paper", 1)]).totalCO2) =
          u.co2_saved + 2.8
      rw [hc, hn,
        show (n : ℚ) / 100 + 2.8 = ((n + 280 : ℤ) : ℚ) / 100 by
          push_cast; ring,
        round2_intCast_div]

/-- Witness for `submit_ledger_spec`: the demo household (whose stored
`co2_saved` is `25.5 = 2550/100`) submitting the `{plastic: 2, paper: 1}`
batch. -/
theorem submit_ledger_spec_witness :
    ∃ (u' : User) (st' : AppState),
      handleWasteSubmission (some DEMO_HOUSEHOLD)
          (updateWasteSummary [("plastic", 2), ("paper", 1)]) "sub-9"
          "req-9" 300 ⟨[], [], [DEMO_HOUSEHOLD]⟩ =
        some (u', st') ∧
      u'.points = DEMO_HOUSEHOLD.points + 30 ∧
      u'.co2_saved = DEMO_HOUSEHOLD.co2_saved + 2.8 ∧
      u'.earnings = DEMO_HOUSEHOLD.earnings ∧
      u'.jobs_today = DEMO_HOUSEHOLD.jobs_today ∧
      u'.id = DEMO_HOUSEHOLD.id ∧ u'.name = DEMO_HOUSEHOLD.name ∧
      u'.address = DEMO_HOUSEHOLD.address ∧
      u'.phone = DEMO_HOUSEHOLD.phone ∧
      u'.user_type = DEMO_HOUSEHOLD.user_type :=
  submit_ledger_spec.2 DEMO_HOUSEHOLD 2550 "sub-9" "req-9" 300
    ⟨[], [], [DEMO_HOUSEHOLD]⟩ (by norm_num [DEMO_HOUSEHOLD])
